import Mathlib

/-!
Shallow embedding of the threshold/hysteresis engine of
`discord-system-observer-bot` (`statsobserver.py`) together with the
evaluation scheduler and bounded history buffer (`bot.py`).

Python `defaultdict`s are embedded as insertion-ordered association lists:
a read (`d[k]`) returns the stored value or the default, inserting the
default when the key is absent, exactly as `collections.defaultdict` does.
Numeric metric values (floats in the source) are modelled as integers;
no verified property depends on their arithmetic, only on comparisons
performed by the per-limit check callables, which are kept abstract.
Message-template formatting is display-only and elided from the strings.
-/

/-- Association-list lookup (first match wins, like a Python dict keyed
on strings). -/
def ddFind {α : Type} : List (String × α) → String → Option α
  | [], _ => none
  | (k2, v) :: rest, k => if k2 = k then some v else ddFind rest k

/-- The value observed when reading key `k` of a defaultdict with default
`dflt`: the stored value, or the default when absent. -/
def ddVal {α : Type} (dflt : α) (d : List (String × α)) (k : String) : α :=
  (ddFind d k).getD dflt

/-- `d[k]` on a `defaultdict`: returns the value and the (possibly
extended) dictionary — a missing key is inserted with the default. -/
def ddRead {α : Type} (dflt : α) (d : List (String × α)) (k : String) :
    α × List (String × α) :=
  match ddFind d k with
  | some v => (v, d)
  | none => (dflt, d ++ [(k, dflt)])

/-- `d[k] = v`: in-place update of the first binding of `k`, appending a
new binding when the key is absent (Python dicts keep insertion order). -/
def ddWrite {α : Type} : List (String × α) → String → α → List (String × α)
  | [], k, v => [(k, v)]
  | (k2, v2) :: rest, k, v =>
    if k2 = k then (k2, v) :: rest else (k2, v2) :: ddWrite rest k v

/-- `self.stats[key] += 1` on a `defaultdict(int)`. -/
def ddIncr (d : List (String × Int)) (k : String) : List (String × Int) :=
  let r := ddRead 0 d k
  ddWrite r.2 k (r.1 + 1)

/-- `ObservableLimit` named tuple from `statsobserver.py`.  `fn_retrieve`
returns `none` when the underlying retrieval raises. -/
structure ObservableLimit where
  name : String
  fn_retrieve : Unit → Option Int
  fn_check : Int → Int → Bool
  unit : String
  threshold : Int
  message : String
  badness_inc : Option Int
  badness_dec : Option Int
  badness_threshold : Option Int

/-- `BadCounterManager.__init__`: `bad_counters = defaultdict(int)` plus
the three defaults (3, 1, 1 at every construction site in the source). -/
structure BadCounterManager where
  bad_counters : List (String × Int)
  default_increase : Int
  default_decrease : Int
  default_threshold : Int
deriving DecidableEq

def BadCounterManager.new (default_threshold default_increase default_decrease : Int) :
    BadCounterManager :=
  { bad_counters := []
    default_increase := default_increase
    default_decrease := default_decrease
    default_threshold := default_threshold }

/-- `limit.badness_threshold if limit.badness_threshold is not None else
self.default_threshold`. -/
def BadCounterManager.effThreshold (m : BadCounterManager) (limit : ObservableLimit) : Int :=
  match limit.badness_threshold with
  | some t => t
  | none => m.default_threshold

/-- `limit.badness_inc if limit.badness_inc is not None else
self.default_increase`. -/
def BadCounterManager.effIncrease (m : BadCounterManager) (limit : ObservableLimit) : Int :=
  match limit.badness_inc with
  | some i => i
  | none => m.default_increase

/-- `limit.badness_dec if limit is not None and limit.badness_dec is not
None else self.default_decrease`. -/
def BadCounterManager.effDecrease (m : BadCounterManager) (limit : Option ObservableLimit) : Int :=
  match limit with
  | some l =>
    match l.badness_dec with
    | some d => d
    | none => m.default_decrease
  | none => m.default_decrease

/-- The observable value of `self.bad_counters[name]` (default 0). -/
def BadCounterManager.counterVal (m : BadCounterManager) (name : String) : Int :=
  ddVal 0 m.bad_counters name

/-- `threshold_reached`: `self.bad_counters[name] >= bad_threshold`.
The defaultdict read may insert the key, so the manager is returned too. -/
def BadCounterManager.threshold_reached (m : BadCounterManager) (name : String)
    (limit : ObservableLimit) : BadCounterManager × Bool :=
  let bad_threshold := m.effThreshold limit
  let r := ddRead 0 m.bad_counters name
  ({ m with bad_counters := r.2 }, decide (bad_threshold ≤ r.1))

/-- `is_normal`: `self.bad_counters[name] == 0`. -/
def BadCounterManager.is_normal (m : BadCounterManager) (name : String) :
    BadCounterManager × Bool :=
  let r := ddRead 0 m.bad_counters name
  ({ m with bad_counters := r.2 }, decide (r.1 = 0))

/-- `increase_counter`:
`self.bad_counters[name] = min(bad_threshold, self.bad_counters[name] + bad_inc)`
then `return self.threshold_reached(name, limit)`. -/
def BadCounterManager.increase_counter (m : BadCounterManager) (name : String)
    (limit : ObservableLimit) : BadCounterManager × Bool :=
  let bad_threshold := m.effThreshold limit
  let bad_inc := m.effIncrease limit
  let r := ddRead 0 m.bad_counters name
  let m2 : BadCounterManager :=
    { m with bad_counters := ddWrite r.2 name (min bad_threshold (r.1 + bad_inc)) }
  m2.threshold_reached name limit

/-- `decrease_counter`: when the counter is positive,
`self.bad_counters[name] = max(0, self.bad_counters[name] - bad_dec)`,
then `return self.is_normal(name)`. -/
def BadCounterManager.decrease_counter (m : BadCounterManager) (name : String)
    (limit : Option ObservableLimit) : BadCounterManager × Bool :=
  let r := ddRead 0 m.bad_counters name
  let m1 : BadCounterManager := { m with bad_counters := r.2 }
  let m2 : BadCounterManager :=
    if 0 < r.1 then
      let bad_dec := m1.effDecrease limit
      { m1 with bad_counters := ddWrite m1.bad_counters name (max 0 (r.1 - bad_dec)) }
    else m1
  m2.is_normal name

/-- `reset`: zero one counter, or all tracked counters when no name is
given (the key set is preserved either way, matching the source loop). -/
def BadCounterManager.reset (m : BadCounterManager) (name : Option String) :
    BadCounterManager :=
  match name with
  | some n => { m with bad_counters := ddWrite m.bad_counters n 0 }
  | none => { m with bad_counters := m.bad_counters.map (fun kv => (kv.1, 0)) }

/-- `NotifyBadCounterManager`: adds `self.notified = defaultdict(bool)`. -/
structure NotifyBadCounterManager extends BadCounterManager where
  notified : List (String × Bool)
deriving DecidableEq

def NotifyBadCounterManager.new (default_threshold default_increase default_decrease : Int) :
    NotifyBadCounterManager :=
  { toBadCounterManager :=
      BadCounterManager.new default_threshold default_increase default_decrease
    notified := [] }

/-- Observable value of `self.notified[name]` (default `False`). -/
def NotifyBadCounterManager.notifiedVal (m : NotifyBadCounterManager) (name : String) : Bool :=
  ddVal false m.notified name

def NotifyBadCounterManager.counterVal (m : NotifyBadCounterManager) (name : String) : Int :=
  m.toBadCounterManager.counterVal name

/-- Inherited `increase_counter` acting on the extended state. -/
def NotifyBadCounterManager.increase_counter (m : NotifyBadCounterManager) (name : String)
    (limit : ObservableLimit) : NotifyBadCounterManager × Bool :=
  let r := m.toBadCounterManager.increase_counter name limit
  ({ m with toBadCounterManager := r.1 }, r.2)

/-- Inherited `threshold_reached` acting on the extended state. -/
def NotifyBadCounterManager.threshold_reached (m : NotifyBadCounterManager) (name : String)
    (limit : ObservableLimit) : NotifyBadCounterManager × Bool :=
  let r := m.toBadCounterManager.threshold_reached name limit
  ({ m with toBadCounterManager := r.1 }, r.2)

/-- Inherited `is_normal` acting on the extended state. -/
def NotifyBadCounterManager.is_normal (m : NotifyBadCounterManager) (name : String) :
    NotifyBadCounterManager × Bool :=
  let r := m.toBadCounterManager.is_normal name
  ({ m with toBadCounterManager := r.1 }, r.2)

/-- Overridden `decrease_counter`:
records `was_normal_before` and `has_notified_before`, delegates to the
base-class decrease, clears the notified flag when normal, and returns
`was_normal_before != is_normal and has_notified_before`. -/
def NotifyBadCounterManager.decrease_counter (m : NotifyBadCounterManager) (name : String)
    (limit : Option ObservableLimit) : NotifyBadCounterManager × Bool :=
  let r0 := m.toBadCounterManager.is_normal name
  let was_normal_before := r0.2
  let m1 : NotifyBadCounterManager := { m with toBadCounterManager := r0.1 }
  let r1 := ddRead false m1.notified name
  let has_notified_before := r1.1
  let m2 : NotifyBadCounterManager := { m1 with notified := r1.2 }
  let r2 := m2.toBadCounterManager.decrease_counter name limit
  let is_normal := r2.2
  let m3 : NotifyBadCounterManager := { m2 with toBadCounterManager := r2.1 }
  let m4 : NotifyBadCounterManager :=
    if is_normal then { m3 with notified := ddWrite m3.notified name false } else m3
  (m4, (was_normal_before != is_normal) && has_notified_before)

/-- `should_notify`: `False` when the threshold is not reached or the
limit was already notified; `True` otherwise. -/
def NotifyBadCounterManager.should_notify (m : NotifyBadCounterManager) (name : String)
    (limit : ObservableLimit) : NotifyBadCounterManager × Bool :=
  let r := m.threshold_reached name limit
  let m1 := r.1
  if !r.2 then (m1, false)
  else
    let r1 := ddRead false m1.notified name
    let m2 : NotifyBadCounterManager := { m1 with notified := r1.2 }
    if r1.1 then (m2, false) else (m2, true)

/-- `mark_notified`: `self.notified[name] = True`. -/
def NotifyBadCounterManager.mark_notified (m : NotifyBadCounterManager) (name : String) :
    NotifyBadCounterManager :=
  { m with notified := ddWrite m.notified name true }

/-- Overridden `reset`: also clears the notified flag(s). -/
def NotifyBadCounterManager.reset (m : NotifyBadCounterManager) (name : Option String) :
    NotifyBadCounterManager :=
  let m1 : NotifyBadCounterManager :=
    { m with toBadCounterManager := m.toBadCounterManager.reset name }
  match name with
  | some n => { m1 with notified := ddWrite m1.notified n false }
  | none => { m1 with notified := m1.notified.map (fun kv => (kv.1, false)) }

/-- Disk-usage limit built by `make_observable_limits` for one mount
path: `badness_inc=None`, `badness_threshold=None` ("notify
immediately" per the source comment). -/
def disk_usage_limit (path : String) (retrieve : Unit → Option Int) : ObservableLimit :=
  { name := "Disk Usage: " ++ path
    fn_retrieve := retrieve
    fn_check := fun cur thres => decide (cur < thres)
    unit := "%"
    threshold := 95
    message := "Disk Usage is too high!"
    badness_inc := none
    badness_dec := none
    badness_threshold := none }

/-- Free-disk-space limit built by `make_observable_limits`:
`badness_inc=None`, `badness_threshold=None`. -/
def disk_free_limit (path : String) (retrieve : Unit → Option Int) : ObservableLimit :=
  { name := "Disk Space (Free): " ++ path
    fn_retrieve := retrieve
    fn_check := fun cur thres => decide (thres < cur)
    unit := "GB"
    threshold := 30
    message := "No more Disk Space!"
    badness_inc := none
    badness_dec := none
    badness_threshold := none }

/-- Memory-utilisation limit built by `make_observable_limits`:
`badness_inc=1`, `badness_threshold=3`. -/
def mem_util_limit (retrieve : Unit → Option Int) : ObservableLimit :=
  { name := "Memory Utilisation"
    fn_retrieve := retrieve
    fn_check := fun cur thres => decide (cur < thres)
    unit := "%"
    threshold := 85
    message := "Memory Usage is too high!"
    badness_inc := some 1
    badness_dec := none
    badness_threshold := some 3 }

/-- CPU load-average limit built by `make_observable_limits`:
`badness_inc=2`, `badness_threshold=6`. -/
def cpu_load_limit (retrieve : Unit → Option Int) : ObservableLimit :=
  { name := "CPU Load Avg"
    fn_retrieve := retrieve
    fn_check := fun cur thres => decide (cur < thres)
    unit := "%"
    threshold := 95
    message := "CPU Load Avg is too high!"
    badness_inc := some 2
    badness_dec := none
    badness_threshold := some 6 }

/-- State owned by `SystemResourceObserverCog`: the notification-gating
manager, the `stats` defaultdict and the messages handed to the sink. -/
structure CogState where
  bad_checker : NotifyBadCounterManager
  stats : List (String × Int)
  sent : List String
deriving DecidableEq

namespace SystemResourceObserverCog

/-- `__init__`: `NotifyBadCounterManager()` with its defaults (3, 1, 1)
and an empty `stats` defaultdict. -/
def init : CogState :=
  { bad_checker := NotifyBadCounterManager.new 3 1 1
    stats := []
    sent := [] }

/-- `run_single_check`: retrieve, check, then either the bad-sample path
(increase, `should_notify`, send + `mark_notified`) or the good-sample
path (`decrease_counter(name)` — note: no `limit` argument — and a
one-time recovery message).  `none` models the retrieval raising, which
happens before any state mutation. -/
def run_single_check (st : CogState) (name : String) (limit : ObservableLimit) :
    Option CogState :=
  match limit.fn_retrieve () with
  | none => none
  | some cur_value =>
    let is_ok := limit.fn_check cur_value limit.threshold
    if !is_ok then
      let st1 : CogState := { st with stats := ddIncr st.stats "num_limits_reached" }
      let perLimitKey := "num_limits_reached:" ++ name ++ ":" ++ limit.name
      let st2 : CogState := { st1 with stats := ddIncr st1.stats perLimitKey }
      let r := st2.bad_checker.increase_counter name limit
      let st3 : CogState := { st2 with bad_checker := r.1 }
      let r2 := st3.bad_checker.should_notify name limit
      let st4 : CogState := { st3 with bad_checker := r2.1 }
      if r2.2 then
        let st5 : CogState := { st4 with sent := st4.sent ++ [limit.message] }
        let st6 : CogState := { st5 with bad_checker := st5.bad_checker.mark_notified name }
        some { st6 with stats := ddIncr st6.stats "num_limits_notified" }
      else some st4
    else
      let r := st.bad_checker.decrease_counter name none
      let st1 : CogState := { st with bad_checker := r.1 }
      if r.2 then
        let st2 : CogState :=
          { st1 with sent := st1.sent ++ ["*" ++ limit.name ++ " has recovered*"] }
        some { st2 with stats := ddIncr st2.stats "num_normal_notified" }
      else some st1

/-- `observe_system`: one tick — every limit is checked inside a
`try/except` that swallows per-limit failures, then `num_checks` is
bumped. -/
def observe_system (st : CogState) (limits : List (String × ObservableLimit)) : CogState :=
  let st1 := limits.foldl
    (fun s p =>
      match run_single_check s p.1 p.2 with
      | some s2 => s2
      | none => s) st
  { st1 with stats := ddIncr st1.stats "num_checks" }

end SystemResourceObserverCog

/-- One bad sample as driven by `run_single_check`'s failed-check branch:
increase the counter, ask `should_notify`, and `mark_notified` right
after an alert decision. -/
def badSample (m : NotifyBadCounterManager) (name : String) (limit : ObservableLimit) :
    NotifyBadCounterManager × Bool :=
  let r := m.increase_counter name limit
  let r2 := r.1.should_notify name limit
  let m3 := if r2.2 then r2.1.mark_notified name else r2.1
  (m3, r2.2)

/-- `n` consecutive bad samples; returns the final manager and the list
of alert decisions in order. -/
def badSamples (m : NotifyBadCounterManager) (name : String) (limit : ObservableLimit) :
    Nat → NotifyBadCounterManager × List Bool
  | 0 => (m, [])
  | n + 1 =>
    let r := badSample m name limit
    let r2 := badSamples r.1 name limit n
    (r2.1, r.2 :: r2.2)

/-- A single call of `increase_counter` or `decrease_counter` for one
limit id, as allowed by the `BadCounterManager` interface. -/
inductive CounterOp where
  | increase : CounterOp
  | decrease : Option ObservableLimit → CounterOp

/-- Run a sequence of increase/decrease calls for one id against the
bare `BadCounterManager`. -/
def runCounterOps (m : BadCounterManager) (name : String) (limit : ObservableLimit) :
    List CounterOp → BadCounterManager
  | [] => m
  | op :: rest =>
    let m2 := match op with
      | CounterOp.increase => (m.increase_counter name limit).1
      | CounterOp.decrease l => (m.decrease_counter name l).1
    runCounterOps m2 name limit rest

/-- A `stats` dictionary as built by `statsobserver.collect_stats`. -/
abbrev Stats := List (String × Int)

/-- One discovered accelerator device as seen by `collect_stats`
(already-rounded integer readings). -/
structure GpuReading where
  id : Nat
  load : Int
  memoryUtil : Int
  temperature : Int
  memoryUsed : Int
  memoryTotal : Int
deriving DecidableEq

/-- The external world as read by one `collect_stats` call: `none`
models the corresponding retrieval raising. -/
structure MetricReadings where
  loadavg : Option (Int × Int × Int)
  mem_util : Option Int
  mem_used : Option Int
  disk_paths : List String
  disk_usage : String → Option Int
  disk_free : String → Option Int
  has_gpu_deps : Bool
  gpus : Option (List GpuReading)

/-- The per-mount-path loop of `collect_stats`: a failing read of any
path aborts the whole snapshot. -/
def diskStats (r : MetricReadings) : List String → Option Stats
  | [] => some []
  | p :: rest =>
    match r.disk_usage p, r.disk_free p with
    | some u, some f =>
      match diskStats r rest with
      | some tail =>
        some (("disk_usage_perc:" ++ p, u) :: ("disk_free_gb:" ++ p, f) :: tail)
      | none => none
    | _, _ => none

/-- The per-device loop of `collect_stats` over discovered accelerators. -/
def gpuStats : List GpuReading → Stats
  | [] => []
  | g :: rest =>
    ("gpu_util_perc:" ++ toString g.id, g.load) ::
    ("gpu_mem_perc:" ++ toString g.id, g.memoryUtil) ::
    ("gpu_temp:" ++ toString g.id, g.temperature) ::
    ("gpu_mem_used_mb:" ++ toString g.id, g.memoryUsed) ::
    ("gpu_mem_total_mb:" ++ toString g.id, g.memoryTotal) :: gpuStats rest

/-- `statsobserver.collect_stats(include)`: builds the snapshot dict with
`_id = 0`, `_datetime`, then the cpu / disk / gpu sections; any failing
read while a section is being built discards the whole snapshot
(`none`), because the exception propagates to the caller. -/
def collect_stats (incl : List String) (dt : Int) (r : MetricReadings) : Option Stats :=
  let base : Stats := [("_id", 0), ("_datetime", dt)]
  let cpuPart : Option Stats :=
    if "cpu" ∈ incl then
      match r.loadavg, r.mem_util, r.mem_used with
      | some (l1, l5, l15), some mu, some mg =>
        some [("load_avg_1m_perc_percpu", l1), ("load_avg_5m_perc_percpu", l5),
              ("load_avg_15m_perc_percpu", l15), ("mem_util_perc", mu),
              ("mem_used_gb", mg)]
      | _, _, _ => none
    else some []
  match cpuPart with
  | none => none
  | some cpu =>
    let diskPart : Option Stats :=
      if "disk" ∈ incl then diskStats r r.disk_paths else some []
    match diskPart with
    | none => none
    | some disk =>
      let gpuPart : Option Stats :=
        if "gpu" ∈ incl then
          if r.has_gpu_deps then
            match r.gpus with
            | some gs => some (gpuStats gs)
            | none => none
          else some []
        else some []
      match gpuPart with
      | none => none
      | some gpu => some (base ++ cpu ++ disk ++ gpu)

/-- `from ... import collect_stats as _collect_stats` in `bot.py`. -/
def _collect_stats : List String → Int → MetricReadings → Option Stats :=
  collect_stats

namespace SystemStatsCollectorCog

/-- `num = 10 / 60 * 60 * 24 * 7` from the constructor, as real-number
arithmetic. -/
def num : ℚ := 10 / 60 * 60 * 24 * 7

/-- `deque(maxlen=round(num))`. -/
def maxlen : ℕ := (round num).toNat

/-- `@tasks.loop(minutes=5.0)` on `collect_stats`. -/
def loop_interval_minutes : ℚ := 5

/-- Minutes in one week, for comparing the buffer capacity against the
spec's `round(samples-per-week)` at the configured tick period. -/
def minutes_per_week : ℚ := 60 * 24 * 7

/-- `deque.append` with a `maxlen`: the oldest entry is evicted when the
capacity is exceeded. -/
def dequeAppend (buf : List Stats) (m : ℕ) (x : Stats) : List Stats :=
  let buf2 := buf ++ [x]
  buf2.drop (buf2.length - m)

/-- One `collect_stats` task tick of `SystemStatsCollectorCog`: collect a
snapshot (the whole `try` body is skipped when it raises), then
`cur_stats["_id"] = self.stats[-1]["_id"] + 1` when the buffer is
non-empty, then append to the bounded deque. -/
def collect_stats (buf : List Stats) (dt : Int) (r : MetricReadings) : List Stats :=
  match _collect_stats ["cpu", "disk", "gpu"] dt r with
  | none => buf
  | some cur =>
    let cur2 :=
      match buf.getLast? with
      | some last => ddWrite cur "_id" (ddVal 0 last "_id" + 1)
      | none => cur
    dequeAppend buf maxlen cur2

/-- A run of collector ticks (each tick sees its own external readings). -/
def runCollector (buf : List Stats) (ticks : List (Int × MetricReadings)) : List Stats :=
  ticks.foldl (fun b t => collect_stats b t.1 t.2) buf

/-- Whether one tick's snapshot build succeeds. -/
def collectOk (t : Int × MetricReadings) : Bool :=
  (_collect_stats ["cpu", "disk", "gpu"] t.1 t.2).isSome

/-- Number of successful appends in a run. -/
def successCount (ticks : List (Int × MetricReadings)) : ℕ :=
  ticks.countP collectOk

/-- The sequence id of a stored snapshot. -/
def sid (s : Stats) : Int :=
  ddVal 0 s "_id"

end SystemStatsCollectorCog

/-- Concrete memory-utilisation limit whose retrieval reports a bad
value (90 ≥ 85). -/
def exMemLimit : ObservableLimit :=
  mem_util_limit (fun _ => some 90)

/-- Concrete disk-usage limit whose retrieval reports a bad value
(96 ≥ 95). -/
def exDiskLimit : ObservableLimit :=
  disk_usage_limit "/" (fun _ => some 96)

/-- A manager mid-excursion: counter 1, already notified. -/
def exNotifiedMgr : NotifyBadCounterManager :=
  { toBadCounterManager :=
      { bad_counters := [("x", 1)]
        default_increase := 1
        default_decrease := 1
        default_threshold := 3 }
    notified := [("x", true)] }

/-- A limit that defines a `badness_dec` override of 5 and whose check
passes (good sample). -/
def exDecLimit : ObservableLimit :=
  { name := "L5"
    fn_retrieve := fun _ => some 10
    fn_check := fun _ _ => true
    unit := "%"
    threshold := 95
    message := "m"
    badness_inc := none
    badness_dec := some 5
    badness_threshold := none }

/-- Scheduler state whose tracker holds counter 3 for id `x`. -/
def exCounter3State : CogState :=
  { bad_checker :=
      { toBadCounterManager :=
          { bad_counters := [("x", 3)]
            default_increase := 1
            default_decrease := 1
            default_threshold := 3 }
        notified := [] }
    stats := []
    sent := [] }

/-- The counter value of `name` after `run_single_check` (when the check
ran at all). -/
def runCheckCounter (st : CogState) (name : String) (limit : ObservableLimit) : Option Int :=
  (SystemResourceObserverCog.run_single_check st name limit).map
    (fun s => s.bad_checker.counterVal name)

/-- A limit whose retrieval always fails. -/
def exFailLimit : ObservableLimit :=
  { name := "failing"
    fn_retrieve := fun _ => none
    fn_check := fun _ _ => true
    unit := "%"
    threshold := 95
    message := "m"
    badness_inc := none
    badness_dec := none
    badness_threshold := none }

/-- External readings for which every retrieval succeeds (no disks, no
accelerator support). -/
def exOkReadings : MetricReadings :=
  { loadavg := some (1, 2, 3)
    mem_util := some 4
    mem_used := some 5
    disk_paths := []
    disk_usage := fun _ => none
    disk_free := fun _ => none
    has_gpu_deps := false
    gpus := none }

/-- External readings whose load-average read raises. -/
def exFailReadings : MetricReadings :=
  { loadavg := none
    mem_util := some 4
    mem_used := some 5
    disk_paths := ["/"]
    disk_usage := fun _ => some 50
    disk_free := fun _ => some 100
    has_gpu_deps := false
    gpus := none }

theorem ddFind_append_none {α : Type} {d : List (String × α)} {k : String}
    (h : ddFind d k = none) (e : List (String × α)) :
    ddFind (d ++ e) k = ddFind e k := by
  induction d with
  | nil => simp
  | cons kv rest ih =>
    obtain ⟨k2, v⟩ := kv
    by_cases hk : k2 = k
    · simp [ddFind, hk] at h
    · simp only [ddFind, hk, if_false, List.cons_append] at h ⊢
      exact ih h

theorem ddFind_append_some {α : Type} {d : List (String × α)} {k : String} {v : α}
    (h : ddFind d k = some v) (e : List (String × α)) :
    ddFind (d ++ e) k = some v := by
  induction d with
  | nil => simp [ddFind] at h
  | cons kv rest ih =>
    obtain ⟨k2, w⟩ := kv
    by_cases hk : k2 = k
    · simp only [ddFind, hk, if_true] at h ⊢
      simpa using h
    · simp only [ddFind, hk, if_false, List.cons_append] at h ⊢
      exact ih h

theorem ddVal_read_fst {α : Type} (dflt : α) (d : List (String × α)) (k : String) :
    (ddRead dflt d k).1 = ddVal dflt d k := by
  unfold ddRead ddVal
  cases h : ddFind d k <;> simp [h]

theorem ddVal_read_snd {α : Type} (dflt : α) (d : List (String × α)) (k k2 : String) :
    ddVal dflt (ddRead dflt d k).2 k2 = ddVal dflt d k2 := by
  unfold ddRead
  cases h : ddFind d k with
  | some v => simp
  | none =>
    simp only
    by_cases hk : k2 = k
    · subst hk
      unfold ddVal
      rw [ddFind_append_none h]
      simp [ddFind, h]
    · have hk2 : k ≠ k2 := fun h2 => hk h2.symm
      unfold ddVal
      cases h2 : ddFind d k2 with
      | some w => rw [ddFind_append_some h2]
      | none =>
        rw [ddFind_append_none h2]
        simp [ddFind, hk2]

theorem ddVal_write_self {α : Type} (dflt : α) (d : List (String × α)) (k : String) (v : α) :
    ddVal dflt (ddWrite d k v) k = v := by
  induction d with
  | nil => simp [ddWrite, ddVal, ddFind]
  | cons kv rest ih =>
    obtain ⟨k2, w⟩ := kv
    by_cases hk : k2 = k
    · simp [ddWrite, hk, ddVal, ddFind]
    · simp only [ddWrite, hk, if_false]
      simp only [ddVal, ddFind, hk, if_false] at ih ⊢
      exact ih

theorem ddVal_write_ne {α : Type} (dflt : α) (d : List (String × α)) {k k2 : String}
    (hk : k2 ≠ k) (v : α) :
    ddVal dflt (ddWrite d k v) k2 = ddVal dflt d k2 := by
  have hk2 : k ≠ k2 := fun h2 => hk h2.symm
  induction d with
  | nil => simp [ddWrite, ddVal, ddFind, hk2]
  | cons kv rest ih =>
    obtain ⟨k3, w⟩ := kv
    by_cases h3 : k3 = k
    · subst h3
      simp [ddWrite, ddVal, ddFind, hk2]
    · simp only [ddWrite, h3, if_false]
      by_cases h2 : k3 = k2
      · simp [ddVal, ddFind, h2]
      · simp only [ddVal, ddFind, h2, if_false] at ih ⊢
        exact ih

theorem BadCounterManager.threshold_reached_val (m : BadCounterManager) (n : String)
    (l : ObservableLimit) (k : String) :
    ((m.threshold_reached n l).1).counterVal k = m.counterVal k := by
  simp [threshold_reached, counterVal, ddVal_read_snd]

theorem BadCounterManager.threshold_reached_snd (m : BadCounterManager) (n : String)
    (l : ObservableLimit) :
    (m.threshold_reached n l).2 = decide (m.effThreshold l ≤ m.counterVal n) := by
  simp [threshold_reached, counterVal, ddVal_read_fst]

theorem BadCounterManager.is_normal_val (m : BadCounterManager) (n : String) (k : String) :
    ((m.is_normal n).1).counterVal k = m.counterVal k := by
  simp [is_normal, counterVal, ddVal_read_snd]

theorem BadCounterManager.is_normal_snd (m : BadCounterManager) (n : String) :
    (m.is_normal n).2 = decide (m.counterVal n = 0) := by
  simp [is_normal, counterVal, ddVal_read_fst]

theorem BadCounterManager.increase_val_self (m : BadCounterManager) (n : String)
    (l : ObservableLimit) :
    ((m.increase_counter n l).1).counterVal n =
      min (m.effThreshold l) (m.counterVal n + m.effIncrease l) := by
  simp [increase_counter, threshold_reached, counterVal, ddVal_read_fst, ddVal_read_snd,
    ddVal_write_self, effThreshold, effIncrease]

theorem BadCounterManager.increase_val_ne (m : BadCounterManager) (n : String)
    (l : ObservableLimit) {k : String} (hk : k ≠ n) :
    ((m.increase_counter n l).1).counterVal k = m.counterVal k := by
  simp [increase_counter, threshold_reached, counterVal, ddVal_read_snd,
    ddVal_write_ne _ _ hk]

theorem BadCounterManager.increase_snd (m : BadCounterManager) (n : String)
    (l : ObservableLimit) :
    (m.increase_counter n l).2 =
      decide (m.effThreshold l ≤ min (m.effThreshold l) (m.counterVal n + m.effIncrease l)) := by
  simp [increase_counter, threshold_reached, counterVal, ddVal_read_fst, ddVal_read_snd,
    ddVal_write_self, effThreshold, effIncrease]

theorem BadCounterManager.increase_defaults (m : BadCounterManager) (n : String)
    (l : ObservableLimit) :
    ((m.increase_counter n l).1).default_increase = m.default_increase ∧
    ((m.increase_counter n l).1).default_decrease = m.default_decrease ∧
    ((m.increase_counter n l).1).default_threshold = m.default_threshold := by
  simp [increase_counter, threshold_reached]

theorem BadCounterManager.decrease_val_self (m : BadCounterManager) (n : String)
    (l : Option ObservableLimit) :
    ((m.decrease_counter n l).1).counterVal n =
      if 0 < m.counterVal n then max 0 (m.counterVal n - m.effDecrease l)
      else m.counterVal n := by
  by_cases h : 0 < ddVal 0 m.bad_counters n
  · simp [decrease_counter, is_normal, counterVal, ddVal_read_fst, ddVal_read_snd,
      ddVal_write_self, effDecrease, h]
  · simp [decrease_counter, is_normal, counterVal, ddVal_read_fst, ddVal_read_snd, h]

theorem BadCounterManager.decrease_val_ne (m : BadCounterManager) (n : String)
    (l : Option ObservableLimit) {k : String} (hk : k ≠ n) :
    ((m.decrease_counter n l).1).counterVal k = m.counterVal k := by
  by_cases h : 0 < ddVal 0 m.bad_counters n
  · simp [decrease_counter, is_normal, counterVal, ddVal_read_fst, ddVal_read_snd,
      ddVal_write_ne _ _ hk, h]
  · simp [decrease_counter, is_normal, counterVal, ddVal_read_fst, ddVal_read_snd, h]

theorem BadCounterManager.decrease_snd (m : BadCounterManager) (n : String)
    (l : Option ObservableLimit) :
    (m.decrease_counter n l).2 = decide (((m.decrease_counter n l).1).counterVal n = 0) := by
  by_cases h : 0 < ddVal 0 m.bad_counters n
  · simp [decrease_counter, is_normal, counterVal, ddVal_read_fst, ddVal_read_snd,
      ddVal_write_self, h]
  · simp [decrease_counter, is_normal, counterVal, ddVal_read_fst, ddVal_read_snd, h]

theorem BadCounterManager.decrease_defaults (m : BadCounterManager) (n : String)
    (l : Option ObservableLimit) :
    ((m.decrease_counter n l).1).default_increase = m.default_increase ∧
    ((m.decrease_counter n l).1).default_decrease = m.default_decrease ∧
    ((m.decrease_counter n l).1).default_threshold = m.default_threshold := by
  by_cases h : 0 < ddVal 0 m.bad_counters n <;>
    simp [decrease_counter, is_normal, counterVal, ddVal_read_fst, h]

theorem BadCounterManager.is_normal_defaults (m : BadCounterManager) (n : String) :
    ((m.is_normal n).1).default_increase = m.default_increase ∧
    ((m.is_normal n).1).default_decrease = m.default_decrease ∧
    ((m.is_normal n).1).default_threshold = m.default_threshold := by
  simp [is_normal]

theorem BadCounterManager.threshold_reached_defaults (m : BadCounterManager) (n : String)
    (l : ObservableLimit) :
    ((m.threshold_reached n l).1).default_increase = m.default_increase ∧
    ((m.threshold_reached n l).1).default_decrease = m.default_decrease ∧
    ((m.threshold_reached n l).1).default_threshold = m.default_threshold := by
  simp [threshold_reached]

theorem BadCounterManager.effThreshold_eq {m1 m2 : BadCounterManager}
    (h : m1.default_threshold = m2.default_threshold) (l : ObservableLimit) :
    m1.effThreshold l = m2.effThreshold l := by
  cases h2 : l.badness_threshold <;> simp [effThreshold, h, h2]

theorem BadCounterManager.effIncrease_eq {m1 m2 : BadCounterManager}
    (h : m1.default_increase = m2.default_increase) (l : ObservableLimit) :
    m1.effIncrease l = m2.effIncrease l := by
  cases h2 : l.badness_inc <;> simp [effIncrease, h, h2]

theorem BadCounterManager.effDecrease_eq {m1 m2 : BadCounterManager}
    (h : m1.default_decrease = m2.default_decrease) (l : Option ObservableLimit) :
    m1.effDecrease l = m2.effDecrease l := by
  cases l with
  | none => simp [effDecrease, h]
  | some l2 => cases h2 : l2.badness_dec <;> simp [effDecrease, h, h2]

theorem BadCounterManager.is_normal_effDecrease (m : BadCounterManager) (n : String)
    (l : Option ObservableLimit) :
    ((m.is_normal n).1).effDecrease l = m.effDecrease l :=
  effDecrease_eq (m.is_normal_defaults n).2.1 l

theorem BadCounterManager.increase_effThreshold (m : BadCounterManager) (n : String)
    (l : ObservableLimit) (l2 : ObservableLimit) :
    ((m.increase_counter n l).1).effThreshold l2 = m.effThreshold l2 :=
  effThreshold_eq (m.increase_defaults n l).2.2 l2

theorem BadCounterManager.increase_effIncrease (m : BadCounterManager) (n : String)
    (l : ObservableLimit) (l2 : ObservableLimit) :
    ((m.increase_counter n l).1).effIncrease l2 = m.effIncrease l2 :=
  effIncrease_eq (m.increase_defaults n l).1 l2

theorem BadCounterManager.increase_effDecrease (m : BadCounterManager) (n : String)
    (l : ObservableLimit) (l2 : Option ObservableLimit) :
    ((m.increase_counter n l).1).effDecrease l2 = m.effDecrease l2 :=
  effDecrease_eq (m.increase_defaults n l).2.1 l2

theorem BadCounterManager.decrease_effThreshold (m : BadCounterManager) (n : String)
    (l : Option ObservableLimit) (l2 : ObservableLimit) :
    ((m.decrease_counter n l).1).effThreshold l2 = m.effThreshold l2 :=
  effThreshold_eq (m.decrease_defaults n l).2.2 l2

theorem BadCounterManager.decrease_effIncrease (m : BadCounterManager) (n : String)
    (l : Option ObservableLimit) (l2 : ObservableLimit) :
    ((m.decrease_counter n l).1).effIncrease l2 = m.effIncrease l2 :=
  effIncrease_eq (m.decrease_defaults n l).1 l2

theorem BadCounterManager.decrease_effDecrease (m : BadCounterManager) (n : String)
    (l : Option ObservableLimit) (l2 : Option ObservableLimit) :
    ((m.decrease_counter n l).1).effDecrease l2 = m.effDecrease l2 :=
  effDecrease_eq (m.decrease_defaults n l).2.1 l2

theorem NotifyBadCounterManager.nb_increase_val_self (m : NotifyBadCounterManager) (n : String)
    (l : ObservableLimit) :
    ((m.increase_counter n l).1).counterVal n =
      min (m.toBadCounterManager.effThreshold l)
        (m.counterVal n + m.toBadCounterManager.effIncrease l) := by
  simp [NotifyBadCounterManager.increase_counter, NotifyBadCounterManager.counterVal,
    BadCounterManager.increase_val_self]

theorem NotifyBadCounterManager.nb_increase_val_ne (m : NotifyBadCounterManager) (n : String)
    (l : ObservableLimit) {k : String} (hk : k ≠ n) :
    ((m.increase_counter n l).1).counterVal k = m.counterVal k := by
  simp [NotifyBadCounterManager.increase_counter, NotifyBadCounterManager.counterVal,
    BadCounterManager.increase_val_ne _ _ _ hk]

theorem NotifyBadCounterManager.nb_increase_notified (m : NotifyBadCounterManager) (n : String)
    (l : ObservableLimit) (k : String) :
    ((m.increase_counter n l).1).notifiedVal k = m.notifiedVal k := by
  simp [NotifyBadCounterManager.increase_counter, NotifyBadCounterManager.notifiedVal]

theorem NotifyBadCounterManager.nb_increase_snd (m : NotifyBadCounterManager) (n : String)
    (l : ObservableLimit) :
    (m.increase_counter n l).2 =
      decide (m.toBadCounterManager.effThreshold l ≤
        min (m.toBadCounterManager.effThreshold l)
          (m.counterVal n + m.toBadCounterManager.effIncrease l)) := by
  simp [NotifyBadCounterManager.increase_counter, NotifyBadCounterManager.counterVal,
    BadCounterManager.increase_snd]

theorem NotifyBadCounterManager.nb_threshold_reached_val (m : NotifyBadCounterManager) (n : String)
    (l : ObservableLimit) (k : String) :
    ((m.threshold_reached n l).1).counterVal k = m.counterVal k := by
  simp [NotifyBadCounterManager.threshold_reached, NotifyBadCounterManager.counterVal,
    BadCounterManager.threshold_reached_val]

theorem NotifyBadCounterManager.nb_threshold_reached_notified (m : NotifyBadCounterManager)
    (n : String) (l : ObservableLimit) (k : String) :
    ((m.threshold_reached n l).1).notifiedVal k = m.notifiedVal k := by
  simp [NotifyBadCounterManager.threshold_reached, NotifyBadCounterManager.notifiedVal]

theorem NotifyBadCounterManager.nb_threshold_reached_snd (m : NotifyBadCounterManager) (n : String)
    (l : ObservableLimit) :
    (m.threshold_reached n l).2 =
      decide (m.toBadCounterManager.effThreshold l ≤ m.counterVal n) := by
  simp [NotifyBadCounterManager.threshold_reached, NotifyBadCounterManager.counterVal,
    BadCounterManager.threshold_reached_snd]

theorem NotifyBadCounterManager.nb_is_normal_val (m : NotifyBadCounterManager) (n : String)
    (k : String) :
    ((m.is_normal n).1).counterVal k = m.counterVal k := by
  simp [NotifyBadCounterManager.is_normal, NotifyBadCounterManager.counterVal,
    BadCounterManager.is_normal_val]

theorem NotifyBadCounterManager.nb_is_normal_notified (m : NotifyBadCounterManager) (n : String)
    (k : String) :
    ((m.is_normal n).1).notifiedVal k = m.notifiedVal k := by
  simp [NotifyBadCounterManager.is_normal, NotifyBadCounterManager.notifiedVal]

theorem NotifyBadCounterManager.nb_is_normal_snd (m : NotifyBadCounterManager) (n : String) :
    (m.is_normal n).2 = decide (m.counterVal n = 0) := by
  simp [NotifyBadCounterManager.is_normal, NotifyBadCounterManager.counterVal,
    BadCounterManager.is_normal_snd]

theorem NotifyBadCounterManager.mark_notified_self (m : NotifyBadCounterManager) (n : String) :
    (m.mark_notified n).notifiedVal n = true := by
  simp [NotifyBadCounterManager.mark_notified, NotifyBadCounterManager.notifiedVal,
    ddVal_write_self]

theorem NotifyBadCounterManager.mark_notified_ne (m : NotifyBadCounterManager) (n : String)
    {k : String} (hk : k ≠ n) :
    (m.mark_notified n).notifiedVal k = m.notifiedVal k := by
  simp [NotifyBadCounterManager.mark_notified, NotifyBadCounterManager.notifiedVal,
    ddVal_write_ne _ _ hk]

theorem NotifyBadCounterManager.mark_notified_val (m : NotifyBadCounterManager) (n : String)
    (k : String) :
    (m.mark_notified n).counterVal k = m.counterVal k := by
  simp [NotifyBadCounterManager.mark_notified, NotifyBadCounterManager.counterVal]

theorem NotifyBadCounterManager.should_notify_val (m : NotifyBadCounterManager) (n : String)
    (l : ObservableLimit) (k : String) :
    ((m.should_notify n l).1).counterVal k = m.counterVal k := by
  cases hb : (m.toBadCounterManager.threshold_reached n l).2 <;>
    cases hr : (ddRead false m.notified n).1 <;>
      simp [NotifyBadCounterManager.should_notify, NotifyBadCounterManager.threshold_reached,
        hb, hr, NotifyBadCounterManager.counterVal, BadCounterManager.threshold_reached_val]

theorem NotifyBadCounterManager.should_notify_notified (m : NotifyBadCounterManager) (n : String)
    (l : ObservableLimit) (k : String) :
    ((m.should_notify n l).1).notifiedVal k = m.notifiedVal k := by
  cases hb : (m.toBadCounterManager.threshold_reached n l).2 with
  | false =>
    simp [NotifyBadCounterManager.should_notify, NotifyBadCounterManager.threshold_reached, hb,
      NotifyBadCounterManager.notifiedVal]
  | true =>
    cases hr : (ddRead false m.notified n).1 <;>
      simp [NotifyBadCounterManager.should_notify, NotifyBadCounterManager.threshold_reached,
        hb, hr, NotifyBadCounterManager.notifiedVal, ddVal_read_snd]

theorem NotifyBadCounterManager.should_notify_snd (m : NotifyBadCounterManager) (n : String)
    (l : ObservableLimit) :
    (m.should_notify n l).2 =
      (decide (m.toBadCounterManager.effThreshold l ≤ m.counterVal n) && !(m.notifiedVal n)) := by
  have ht := BadCounterManager.threshold_reached_snd m.toBadCounterManager n l
  cases hb : (m.toBadCounterManager.threshold_reached n l).2 with
  | false =>
    rw [hb] at ht
    simp [NotifyBadCounterManager.should_notify, NotifyBadCounterManager.threshold_reached, hb,
      NotifyBadCounterManager.counterVal, ← ht]
  | true =>
    rw [hb] at ht
    cases hr : (ddRead false m.notified n).1 <;>
      rw [ddVal_read_fst] at hr <;>
        simp [NotifyBadCounterManager.should_notify, NotifyBadCounterManager.threshold_reached,
          hb, hr, NotifyBadCounterManager.counterVal, NotifyBadCounterManager.notifiedVal,
          ddVal_read_fst, ← ht]

theorem NotifyBadCounterManager.nb_decrease_val_self (m : NotifyBadCounterManager) (n : String)
    (l : Option ObservableLimit) :
    ((m.decrease_counter n l).1).counterVal n =
      if 0 < m.counterVal n then
        max 0 (m.counterVal n - m.toBadCounterManager.effDecrease l)
      else m.counterVal n := by
  by_cases hb : ((m.toBadCounterManager.is_normal n).1.decrease_counter n l).2 = true <;>
    simp [NotifyBadCounterManager.decrease_counter, hb, NotifyBadCounterManager.counterVal,
      BadCounterManager.decrease_val_self, BadCounterManager.is_normal_val,
      BadCounterManager.is_normal_effDecrease]

theorem NotifyBadCounterManager.nb_decrease_val_ne (m : NotifyBadCounterManager) (n : String)
    (l : Option ObservableLimit) {k : String} (hk : k ≠ n) :
    ((m.decrease_counter n l).1).counterVal k = m.counterVal k := by
  by_cases hb : ((m.toBadCounterManager.is_normal n).1.decrease_counter n l).2 = true <;>
    simp [NotifyBadCounterManager.decrease_counter, hb, NotifyBadCounterManager.counterVal,
      BadCounterManager.decrease_val_ne _ _ _ hk, BadCounterManager.is_normal_val]

theorem NotifyBadCounterManager.nb_decrease_notified_self (m : NotifyBadCounterManager)
    (n : String) (l : Option ObservableLimit) :
    ((m.decrease_counter n l).1).notifiedVal n =
      if (if 0 < m.counterVal n then
            max 0 (m.counterVal n - m.toBadCounterManager.effDecrease l)
          else m.counterVal n) = 0
      then false else m.notifiedVal n := by
  have hsnd := BadCounterManager.decrease_snd (m.toBadCounterManager.is_normal n).1 n l
  rw [BadCounterManager.decrease_val_self, BadCounterManager.is_normal_val,
    BadCounterManager.is_normal_effDecrease] at hsnd
  by_cases hb : ((m.toBadCounterManager.is_normal n).1.decrease_counter n l).2 = true
  case pos =>
    have hb2 := hb
    rw [hsnd] at hb2
    have hc := of_decide_eq_true hb2
    simp [NotifyBadCounterManager.decrease_counter, hb, NotifyBadCounterManager.notifiedVal,
      NotifyBadCounterManager.counterVal, hc, ddVal_write_self]
  case neg =>
    have hb2 : ((m.toBadCounterManager.is_normal n).1.decrease_counter n l).2 = false :=
      Bool.not_eq_true _ ▸ hb
    rw [hsnd] at hb2
    have hc := of_decide_eq_false hb2
    simp [NotifyBadCounterManager.decrease_counter, hb, NotifyBadCounterManager.notifiedVal,
      NotifyBadCounterManager.counterVal, hc, ddVal_read_snd]

theorem NotifyBadCounterManager.nb_decrease_notified_ne (m : NotifyBadCounterManager)
    (n : String) (l : Option ObservableLimit) {k : String} (hk : k ≠ n) :
    ((m.decrease_counter n l).1).notifiedVal k = m.notifiedVal k := by
  by_cases hb : ((m.toBadCounterManager.is_normal n).1.decrease_counter n l).2 = true <;>
    simp [NotifyBadCounterManager.decrease_counter, hb, NotifyBadCounterManager.notifiedVal,
      ddVal_write_ne _ _ hk, ddVal_read_snd]

theorem NotifyBadCounterManager.nb_decrease_snd (m : NotifyBadCounterManager) (n : String)
    (l : Option ObservableLimit) :
    (m.decrease_counter n l).2 =
      ((decide (m.counterVal n = 0) !=
        decide ((if 0 < m.counterVal n then
            max 0 (m.counterVal n - m.toBadCounterManager.effDecrease l)
          else m.counterVal n) = 0)) && m.notifiedVal n) := by
  simp [NotifyBadCounterManager.decrease_counter, NotifyBadCounterManager.counterVal,
    NotifyBadCounterManager.notifiedVal, BadCounterManager.is_normal_snd,
    BadCounterManager.decrease_snd, BadCounterManager.decrease_val_self,
    BadCounterManager.is_normal_val, BadCounterManager.is_normal_effDecrease, ddVal_read_fst]

theorem BadCounterManager.effDecrease_none (m : BadCounterManager) :
    m.effDecrease none = m.default_decrease := rfl

/-- C3: for every limit id, a good-sample decrease returns the recovery
decision `true` exactly when the counter was positive before the call,
reaches 0 by the call and the notified flag was set (so exactly once per
excursion); reaching 0 always clears the notified flag; and a good
sample while the counter is already 0 returns no recovery while leaving
the counter at 0 and the flag cleared. -/
theorem C3_recovery_exactly_once (m : NotifyBadCounterManager) (name : String)
    (limit : Option ObservableLimit) :
    ((m.decrease_counter name limit).2 = true ↔
      (0 < m.counterVal name ∧ ((m.decrease_counter name limit).1).counterVal name = 0 ∧
        m.notifiedVal name = true)) ∧
    (((m.decrease_counter name limit).1).counterVal name = 0 →
      ((m.decrease_counter name limit).1).notifiedVal name = false) ∧
    (m.counterVal name = 0 →
      (m.decrease_counter name limit).2 = false ∧
      ((m.decrease_counter name limit).1).counterVal name = 0 ∧
      ((m.decrease_counter name limit).1).notifiedVal name = false) := by
  by_cases hcpos : 0 < m.counterVal name
  case pos =>
    have hc0 : ¬ m.counterVal name = 0 := by omega
    by_cases he : max 0 (m.counterVal name - m.toBadCounterManager.effDecrease limit) = 0 <;>
      by_cases hb : m.notifiedVal name = true <;>
        simp [NotifyBadCounterManager.nb_decrease_snd, NotifyBadCounterManager.nb_decrease_val_self,
          NotifyBadCounterManager.nb_decrease_notified_self, hcpos, hc0, he, hb]
  case neg =>
    by_cases hc0 : m.counterVal name = 0 <;>
      by_cases hb : m.notifiedVal name = true <;>
        simp [NotifyBadCounterManager.nb_decrease_snd, NotifyBadCounterManager.nb_decrease_val_self,
          NotifyBadCounterManager.nb_decrease_notified_self, hcpos, hc0, hb]

theorem C3_recovery_exactly_once_witness :
    (exNotifiedMgr.decrease_counter "x" none).2 = true ∧
    ((exNotifiedMgr.decrease_counter "x" none).1).notifiedVal "x" = false :=
  ⟨(C3_recovery_exactly_once exNotifiedMgr "x" none).1.mpr
      ⟨by decide, by decide, by decide⟩,
   (C3_recovery_exactly_once exNotifiedMgr "x" none).2.1 (by decide)⟩

/-- C10: the read-only queries `is_normal`, `threshold_reached` and
`should_notify` never change the observable state: every badness-counter
value and every notified-flag value reads the same before and after any
such query, and a never-touched id reads as counter 0 and notified
false on a fresh manager. -/
theorem C10_queries_are_pure (m : BadCounterManager) (nm : NotifyBadCounterManager)
    (name id : String) (limit : ObservableLimit) :
    ((m.threshold_reached name limit).1).counterVal id = m.counterVal id ∧
    ((m.is_normal name).1).counterVal id = m.counterVal id ∧
    ((nm.threshold_reached name limit).1).counterVal id = nm.counterVal id ∧
    ((nm.threshold_reached name limit).1).notifiedVal id = nm.notifiedVal id ∧
    ((nm.is_normal name).1).counterVal id = nm.counterVal id ∧
    ((nm.is_normal name).1).notifiedVal id = nm.notifiedVal id ∧
    ((nm.should_notify name limit).1).counterVal id = nm.counterVal id ∧
    ((nm.should_notify name limit).1).notifiedVal id = nm.notifiedVal id ∧
    (NotifyBadCounterManager.new 3 1 1).counterVal id = 0 ∧
    (NotifyBadCounterManager.new 3 1 1).notifiedVal id = false :=
  ⟨m.threshold_reached_val name limit id,
   m.is_normal_val name id,
   nm.nb_threshold_reached_val name limit id,
   nm.nb_threshold_reached_notified name limit id,
   nm.nb_is_normal_val name id,
   nm.nb_is_normal_notified name id,
   nm.should_notify_val name limit id,
   nm.should_notify_notified name limit id,
   by simp [NotifyBadCounterManager.new, BadCounterManager.new,
     NotifyBadCounterManager.counterVal, BadCounterManager.counterVal, ddVal, ddFind],
   by simp [NotifyBadCounterManager.new, BadCounterManager.new,
     NotifyBadCounterManager.notifiedVal, ddVal, ddFind]⟩

/-- C4: claim says a single bad sample on a disk limit built with
`badness_inc=None`, `badness_threshold=None` alerts immediately.  On the
code, the default-constructed `NotifyBadCounterManager()` has
`default_threshold = 3` and `default_increase = 1`, so a single bad
sample only raises the counter to 1 and `should_notify` is `false`: the
first alert needs three consecutive bad samples, contradicting the
source's own "notify immediately" comments. -/
theorem C4_disk_first_bad_sample_no_alert :
    (((NotifyBadCounterManager.new 3 1 1).increase_counter "disk_util_perc0"
        exDiskLimit).1.should_notify "disk_util_perc0" exDiskLimit).2 = false ∧
    ((NotifyBadCounterManager.new 3 1 1).increase_counter "disk_util_perc0"
        exDiskLimit).1.counterVal "disk_util_perc0" = 1 ∧
    (NotifyBadCounterManager.new 3 1 1).toBadCounterManager.effThreshold exDiskLimit = 3 ∧
    (SystemResourceObserverCog.run_single_check SystemResourceObserverCog.init
        "disk_util_perc0" exDiskLimit).map (fun s => s.sent) = some [] := by
  exact ⟨by decide, by decide, by decide, by decide⟩

theorem SystemStatsCollectorCog.maxlen_eq : SystemStatsCollectorCog.maxlen = 1680 := by
  have hnum : SystemStatsCollectorCog.num = ((1680 : ℤ) : ℚ) := by
    norm_num [SystemStatsCollectorCog.num]
  simp [SystemStatsCollectorCog.maxlen, hnum, round_intCast]

/-- C7: claim says the buffer capacity equals round(one week divided by
the configured tick period).  The code allocates
`round(10/60*60*24*7) = 1680` (one week of samples at a 6-minute
period) while the History Sampler loop is configured to tick every
5 minutes, and `round(week / 5 min) = 2016 ≠ 1680`. -/
theorem C7_capacity_vs_tick_period :
    SystemStatsCollectorCog.maxlen = 1680 ∧
    round (SystemStatsCollectorCog.minutes_per_week /
      SystemStatsCollectorCog.loop_interval_minutes) = (2016 : ℤ) ∧
    (SystemStatsCollectorCog.maxlen : ℤ) ≠
      round (SystemStatsCollectorCog.minutes_per_week /
        SystemStatsCollectorCog.loop_interval_minutes) := by
  have h2 : SystemStatsCollectorCog.minutes_per_week /
      SystemStatsCollectorCog.loop_interval_minutes = ((2016 : ℤ) : ℚ) := by
    norm_num [SystemStatsCollectorCog.minutes_per_week,
      SystemStatsCollectorCog.loop_interval_minutes]
  refine ⟨SystemStatsCollectorCog.maxlen_eq, ?_, ?_⟩
  · rw [h2, round_intCast]
  · rw [h2, round_intCast, SystemStatsCollectorCog.maxlen_eq]
    decide

/-- C5 counterexample: the claim says the evaluation-step good-sample
decrease subtracts the limit's `badness_dec` override (5 here).  With
counter 3 the code leaves the counter at `3 - 1 = 2` (the tracker
default), not at `max 0 (3 - 5) = 0` as the claim predicts. -/
theorem C5_counterexample_override_ignored :
    runCheckCounter exCounter3State "x" exDecLimit = some 2 ∧
    ¬ runCheckCounter exCounter3State "x" exDecLimit = some (max 0 (3 - 5)) := by
  exact ⟨by decide, by decide⟩

/-- C5 amended: the good-sample decrease performed by the evaluation
step passes no limit, so it always subtracts the tracker default
decrement (the `badness_dec` override is ignored, as the field's own
docstring says), floors the counter at 0; and the underlying tracker
decrease reports whether the counter is 0 afterwards. -/
theorem C5_good_sample_uses_default_decrement (st : CogState) (name : String)
    (limit : ObservableLimit) (v : Int)
    (hret : limit.fn_retrieve () = some v)
    (hok : limit.fn_check v limit.threshold = true) :
    runCheckCounter st name limit =
      some (if 0 < st.bad_checker.counterVal name then
              max 0 (st.bad_checker.counterVal name - st.bad_checker.default_decrease)
            else st.bad_checker.counterVal name) ∧
    (∀ (m : BadCounterManager) (n : String) (l : Option ObservableLimit),
      (m.decrease_counter n l).2 =
        decide (((m.decrease_counter n l).1).counterVal n = 0)) := by
  constructor
  · by_cases hr : (st.bad_checker.decrease_counter name none).2 = true <;>
      simp [runCheckCounter, SystemResourceObserverCog.run_single_check, hret, hok, hr,
        NotifyBadCounterManager.nb_decrease_val_self, BadCounterManager.effDecrease_none]
  · exact fun m n l => BadCounterManager.decrease_snd m n l

theorem C5_good_sample_uses_default_decrement_witness :
    runCheckCounter exCounter3State "x" exDecLimit = some 2 := by
  have h := (C5_good_sample_uses_default_decrement exCounter3State "x" exDecLimit 10
    (by decide) (by decide)).1
  rw [h]
  decide

/-- C2: with `badness_threshold = 3` and `badness_inc = 1`, starting
from counter 0 and notified false, under the protocol where
`mark_notified` follows each alert decision, three consecutive bad
samples yield exactly one alert decision — on the third — and the
fourth yields none; and in general, once `notified` is set for an id,
every subsequent bad sample yields `should_notify = false` and leaves
the flag set (so nothing re-alerts until a good-sample run has first
brought the counter back to 0, which is the only way the flag clears). -/
theorem C2_alert_exactly_once_per_excursion :
    ((badSamples (NotifyBadCounterManager.new 3 1 1) "mem_util" exMemLimit 4).2 =
      [false, false, true, false]) ∧
    (∀ (m : NotifyBadCounterManager) (name : String) (limit : ObservableLimit) (k : Nat),
      m.notifiedVal name = true →
      (badSamples m name limit k).2 = List.replicate k false ∧
      ((badSamples m name limit k).1).notifiedVal name = true) := by
  constructor
  · decide
  · intro m name limit k
    induction k generalizing m with
    | zero =>
      intro h
      exact ⟨rfl, h⟩
    | succ k ih =>
      intro h
      have h1 : ((m.increase_counter name limit).1).notifiedVal name = true := by
        rw [NotifyBadCounterManager.nb_increase_notified]
        exact h
      have hsn : (((m.increase_counter name limit).1).should_notify name limit).2 = false := by
        rw [NotifyBadCounterManager.should_notify_snd, h1]
        simp
      have hstate : ((badSample m name limit).1).notifiedVal name = true := by
        simp [badSample, hsn, NotifyBadCounterManager.should_notify_notified, h1]
      have hdec : (badSample m name limit).2 = false := by
        simp [badSample, hsn]
      have ihh := ih (badSample m name limit).1 hstate
      refine ⟨?_, ?_⟩
      · simp [badSamples, hdec, ihh.1, List.replicate_succ]
      · simp [badSamples, ihh.2]

theorem C2_alert_exactly_once_per_excursion_witness :
    (badSamples exNotifiedMgr "x" exMemLimit 2).2 = List.replicate 2 false :=
  (C2_alert_exactly_once_per_excursion.2 exNotifiedMgr "x" exMemLimit 2 (by decide)).1

theorem runCounterOps_bounds (limit : ObservableLimit) (name : String)
    (hlT : ∀ t, limit.badness_threshold = some t → 1 ≤ t)
    (hlI : ∀ i, limit.badness_inc = some i → 1 ≤ i) :
    ∀ (ops : List CounterOp) (m : BadCounterManager),
      1 ≤ m.default_threshold → 1 ≤ m.default_increase → 1 ≤ m.default_decrease →
      (∀ l d, CounterOp.decrease (some l) ∈ ops → l.badness_dec = some d → 1 ≤ d) →
      0 ≤ m.counterVal name → m.counterVal name ≤ m.effThreshold limit →
      0 ≤ (runCounterOps m name limit ops).counterVal name ∧
      (runCounterOps m name limit ops).counterVal name ≤ m.effThreshold limit := by
  intro ops
  induction ops with
  | nil =>
    intro m _ _ _ _ h5 h6
    exact ⟨h5, h6⟩
  | cons op rest ih =>
    intro m h1 h2 h3 h4 h5 h6
    have heffT : 1 ≤ m.effThreshold limit := by
      cases ht : limit.badness_threshold with
      | some t => simpa [BadCounterManager.effThreshold, ht] using hlT t ht
      | none => simpa [BadCounterManager.effThreshold, ht] using h1
    have h4r : ∀ l d, CounterOp.decrease (some l) ∈ rest → l.badness_dec = some d → 1 ≤ d :=
      fun l d hm => h4 l d (List.mem_cons_of_mem _ hm)
    cases op with
    | increase =>
      have heffI : 1 ≤ m.effIncrease limit := by
        cases hi : limit.badness_inc with
        | some i => simpa [BadCounterManager.effIncrease, hi] using hlI i hi
        | none => simpa [BadCounterManager.effIncrease, hi] using h2
      have hd := m.increase_defaults name limit
      have hT2 := BadCounterManager.effThreshold_eq hd.2.2 limit
      have hval := m.increase_val_self name limit
      have hrec := ih (m.increase_counter name limit).1
        (by rw [hd.2.2]; exact h1) (by rw [hd.1]; exact h2) (by rw [hd.2.1]; exact h3)
        h4r (by rw [hval]; omega) (by rw [hval, hT2]; omega)
      rw [runCounterOps]
      exact ⟨hrec.1, by rw [← hT2]; exact hrec.2⟩
    | decrease lop =>
      have heffD : 1 ≤ m.effDecrease lop := by
        cases lop with
        | none => simpa [BadCounterManager.effDecrease] using h3
        | some l =>
          cases hdd : l.badness_dec with
          | some d =>
            simpa [BadCounterManager.effDecrease, hdd] using
              h4 l d (List.mem_cons_self _ _) hdd
          | none => simpa [BadCounterManager.effDecrease, hdd] using h3
      have hd := m.decrease_defaults name lop
      have hT2 := BadCounterManager.effThreshold_eq hd.2.2 limit
      have hval := m.decrease_val_self name lop
      have hrec := ih (m.decrease_counter name lop).1
        (by rw [hd.2.2]; exact h1) (by rw [hd.1]; exact h2) (by rw [hd.2.1]; exact h3)
        h4r
        (by rw [hval]; split <;> omega) (by rw [hval, hT2]; split <;> omega)
      rw [runCounterOps]
      exact ⟨hrec.1, by rw [← hT2]; exact hrec.2⟩

/-- C1: for a limit and tracker whose effective threshold, increment and
decrement values are all ≥ 1, the badness counter of an id stays within
`[0, effective_threshold]` after any finite sequence of
`increase_counter` / `decrease_counter` calls for that id, starting from
a fresh tracker. -/
theorem C1_counter_within_bounds (dT dI dD : Int) (limit : ObservableLimit) (name : String)
    (ops : List CounterOp)
    (hT : 1 ≤ dT) (hI : 1 ≤ dI) (hD : 1 ≤ dD)
    (hlT : ∀ t, limit.badness_threshold = some t → 1 ≤ t)
    (hlI : ∀ i, limit.badness_inc = some i → 1 ≤ i)
    (hdec : ∀ l d, CounterOp.decrease (some l) ∈ ops → l.badness_dec = some d → 1 ≤ d) :
    0 ≤ (runCounterOps (BadCounterManager.new dT dI dD) name limit ops).counterVal name ∧
    (runCounterOps (BadCounterManager.new dT dI dD) name limit ops).counterVal name ≤
      (BadCounterManager.new dT dI dD).effThreshold limit := by
  have h0 : (BadCounterManager.new dT dI dD).counterVal name = 0 := by
    simp [BadCounterManager.new, BadCounterManager.counterVal, ddVal, ddFind]
  have heffT : (1 : Int) ≤ (BadCounterManager.new dT dI dD).effThreshold limit := by
    cases ht : limit.badness_threshold with
    | some t => simpa [BadCounterManager.effThreshold, ht] using hlT t ht
    | none => simpa [BadCounterManager.effThreshold, BadCounterManager.new, ht] using hT
  exact runCounterOps_bounds limit name hlT hlI ops (BadCounterManager.new dT dI dD)
    (by simpa [BadCounterManager.new] using hT) (by simpa [BadCounterManager.new] using hI)
    (by simpa [BadCounterManager.new] using hD) hdec (by rw [h0]) (by rw [h0]; omega)

theorem C1_counter_within_bounds_witness :
    0 ≤ (runCounterOps (BadCounterManager.new 3 1 1) "x" exMemLimit
      [CounterOp.increase, CounterOp.increase, CounterOp.decrease none]).counterVal "x" ∧
    (runCounterOps (BadCounterManager.new 3 1 1) "x" exMemLimit
      [CounterOp.increase, CounterOp.increase, CounterOp.decrease none]).counterVal "x" ≤
      (BadCounterManager.new 3 1 1).effThreshold exMemLimit :=
  C1_counter_within_bounds 3 1 1 exMemLimit "x"
    [CounterOp.increase, CounterOp.increase, CounterOp.decrease none]
    (by decide) (by decide) (by decide)
    (fun t ht => by simp [exMemLimit, mem_util_limit] at ht; omega)
    (fun i hi => by simp [exMemLimit, mem_util_limit] at hi; omega)
    (fun l d hm _ => by simp at hm)

theorem run_single_check_frame {st st2 : CogState} {n : String} {l : ObservableLimit}
    (h : SystemResourceObserverCog.run_single_check st n l = some st2)
    {k : String} (hk : k ≠ n) :
    st2.bad_checker.counterVal k = st.bad_checker.counterVal k ∧
    st2.bad_checker.notifiedVal k = st.bad_checker.notifiedVal k := by
  cases hret : l.fn_retrieve () with
  | none => simp [SystemResourceObserverCog.run_single_check, hret] at h
  | some v =>
    by_cases hok : l.fn_check v l.threshold = true
    case pos =>
      by_cases hrec : (st.bad_checker.decrease_counter n none).2 = true <;>
        simp [SystemResourceObserverCog.run_single_check, hret, hok, hrec] at h <;>
          rw [← h] <;>
            exact ⟨NotifyBadCounterManager.nb_decrease_val_ne _ _ _ hk,
              NotifyBadCounterManager.nb_decrease_notified_ne _ _ _ hk⟩
    case neg =>
      have hokf : l.fn_check v l.threshold = false := by
        rcases Bool.eq_false_or_eq_true (l.fn_check v l.threshold) with h2 | h2
        · exact absurd h2 hok
        · exact h2
      by_cases hsn : ((st.bad_checker.increase_counter n l).1.should_notify n l).2 = true
      case pos =>
        simp [SystemResourceObserverCog.run_single_check, hret, hokf, hsn] at h
        rw [← h]
        constructor
        · rw [NotifyBadCounterManager.mark_notified_val,
            NotifyBadCounterManager.should_notify_val,
            NotifyBadCounterManager.nb_increase_val_ne _ _ _ hk]
        · rw [NotifyBadCounterManager.mark_notified_ne _ _ hk,
            NotifyBadCounterManager.should_notify_notified,
            NotifyBadCounterManager.nb_increase_notified]
      case neg =>
        simp [SystemResourceObserverCog.run_single_check, hret, hokf, hsn] at h
        rw [← h]
        constructor
        · rw [NotifyBadCounterManager.should_notify_val,
            NotifyBadCounterManager.nb_increase_val_ne _ _ _ hk]
        · rw [NotifyBadCounterManager.should_notify_notified,
            NotifyBadCounterManager.nb_increase_notified]

theorem observe_system_frame (k : String) :
    ∀ (limits : List (String × ObservableLimit)) (st : CogState),
      (∀ p ∈ limits, p.1 ≠ k) →
      (SystemResourceObserverCog.observe_system st limits).bad_checker.counterVal k =
        st.bad_checker.counterVal k ∧
      (SystemResourceObserverCog.observe_system st limits).bad_checker.notifiedVal k =
        st.bad_checker.notifiedVal k := by
  intro limits
  induction limits with
  | nil =>
    intro st _
    simp [SystemResourceObserverCog.observe_system]
  | cons p rest ih =>
    intro st hnames
    have hstep : SystemResourceObserverCog.observe_system st (p :: rest) =
        SystemResourceObserverCog.observe_system
          (match SystemResourceObserverCog.run_single_check st p.1 p.2 with
           | some s2 => s2
           | none => st) rest := by
      simp [SystemResourceObserverCog.observe_system]
    have hmid :
        (match SystemResourceObserverCog.run_single_check st p.1 p.2 with
         | some s2 => s2
         | none => st).bad_checker.counterVal k = st.bad_checker.counterVal k ∧
        (match SystemResourceObserverCog.run_single_check st p.1 p.2 with
         | some s2 => s2
         | none => st).bad_checker.notifiedVal k = st.bad_checker.notifiedVal k := by
      cases hrc : SystemResourceObserverCog.run_single_check st p.1 p.2 with
      | none => exact ⟨rfl, rfl⟩
      | some s2 =>
        exact run_single_check_frame hrc
          (fun h2 => hnames p (List.mem_cons_self _ _) h2.symm)
    have hrest := ih
      (match SystemResourceObserverCog.run_single_check st p.1 p.2 with
       | some s2 => s2
       | none => st)
      (fun q hq => hnames q (List.mem_cons_of_mem _ hq))
    rw [hstep]
    exact ⟨hrest.1.trans hmid.1, hrest.2.trans hmid.2⟩

theorem observe_system_skip (st : CogState) (pre post : List (String × ObservableLimit))
    (name : String) (limit : ObservableLimit) (hfail : limit.fn_retrieve () = none) :
    SystemResourceObserverCog.observe_system st (pre ++ (name, limit) :: post) =
      SystemResourceObserverCog.observe_system st (pre ++ post) := by
  have hnone : ∀ s : CogState,
      SystemResourceObserverCog.run_single_check s name limit = none := fun s => by
    simp [SystemResourceObserverCog.run_single_check, hfail]
  simp [SystemResourceObserverCog.observe_system, List.foldl_append, hnone]

/-- C8: when one limit's retrieval fails during a tick, the tick is
exactly the tick over the remaining limits (every other limit is still
evaluated, with its counters updated normally), and — when no other
limit shares the failing id — that id's badness counter and notified
flag are exactly as they were before the tick. -/
theorem C8_retrieval_failure_isolated (st : CogState)
    (pre post : List (String × ObservableLimit)) (name : String) (limit : ObservableLimit)
    (hfail : limit.fn_retrieve () = none) :
    SystemResourceObserverCog.observe_system st (pre ++ (name, limit) :: post) =
      SystemResourceObserverCog.observe_system st (pre ++ post) ∧
    ((∀ p ∈ pre ++ post, p.1 ≠ name) →
      (SystemResourceObserverCog.observe_system st
          (pre ++ (name, limit) :: post)).bad_checker.counterVal name =
        st.bad_checker.counterVal name ∧
      (SystemResourceObserverCog.observe_system st
          (pre ++ (name, limit) :: post)).bad_checker.notifiedVal name =
        st.bad_checker.notifiedVal name) := by
  have hskip := observe_system_skip st pre post name limit hfail
  refine ⟨hskip, fun hnames => ?_⟩
  rw [hskip]
  exact observe_system_frame name (pre ++ post) st hnames

theorem C8_retrieval_failure_isolated_witness :
    SystemResourceObserverCog.observe_system SystemResourceObserverCog.init
        [("a", exMemLimit), ("b", exFailLimit)] =
      SystemResourceObserverCog.observe_system SystemResourceObserverCog.init
        [("a", exMemLimit)] ∧
    (SystemResourceObserverCog.observe_system SystemResourceObserverCog.init
        [("a", exMemLimit), ("b", exFailLimit)]).bad_checker.counterVal "b" = 0 := by
  have h := C8_retrieval_failure_isolated SystemResourceObserverCog.init
    [("a", exMemLimit)] [] "b" exFailLimit (by decide)
  refine ⟨h.1, ?_⟩
  have h2 := (h.2 (fun p hp => by
    rcases List.mem_singleton.mp hp with rfl
    decide)).1
  exact h2.trans (by decide)

theorem ddFind_append_isSome {α : Type} (d e : List (String × α)) (k : String) :
    (ddFind (d ++ e) k).isSome = ((ddFind d k).isSome || (ddFind e k).isSome) := by
  cases h : ddFind d k with
  | some v => simp [ddFind_append_some h]
  | none => simp [ddFind_append_none h]

theorem ddFind_cons_isSome {α : Type} (k2 : String) (v : α) (t : List (String × α)) (k : String)
    (h : (ddFind t k).isSome = true) :
    (ddFind ((k2, v) :: t) k).isSome = true := by
  by_cases hk : k2 = k <;> simp [ddFind, hk, h]

theorem diskStats_keys (r : MetricReadings) :
    ∀ (ps : List String) (d : Stats), diskStats r ps = some d →
      ∀ p ∈ ps, (ddFind d ("disk_usage_perc:" ++ p)).isSome = true ∧
        (ddFind d ("disk_free_gb:" ++ p)).isSome = true := by
  intro ps
  induction ps with
  | nil =>
    intro d _ p hp
    exact absurd hp (List.not_mem_nil p)
  | cons q rest ih =>
    intro d hd p hp
    rcases hu : r.disk_usage q with _ | u
    · simp [diskStats, hu] at hd
    rcases hf : r.disk_free q with _ | f
    · simp [diskStats, hu, hf] at hd
    rcases ht : diskStats r rest with _ | tail
    · simp [diskStats, hu, hf, ht] at hd
    have hd2 : d = ("disk_usage_perc:" ++ q, u) :: ("disk_free_gb:" ++ q, f) :: tail := by
      simp [diskStats, hu, hf, ht] at hd
      exact hd.symm
    subst hd2
    rcases List.mem_cons.mp hp with rfl | hp2
    · constructor
      · simp [ddFind]
      · apply ddFind_cons_isSome
        simp [ddFind]
    · have hk := ih tail ht p hp2
      exact ⟨ddFind_cons_isSome _ _ _ _ (ddFind_cons_isSome _ _ _ _ hk.1),
             ddFind_cons_isSome _ _ _ _ (ddFind_cons_isSome _ _ _ _ hk.2)⟩

theorem gpuStats_keys :
    ∀ (gs : List GpuReading) (g : GpuReading), g ∈ gs →
      (ddFind (gpuStats gs) ("gpu_util_perc:" ++ toString g.id)).isSome = true ∧
      (ddFind (gpuStats gs) ("gpu_mem_perc:" ++ toString g.id)).isSome = true ∧
      (ddFind (gpuStats gs) ("gpu_temp:" ++ toString g.id)).isSome = true ∧
      (ddFind (gpuStats gs) ("gpu_mem_used_mb:" ++ toString g.id)).isSome = true ∧
      (ddFind (gpuStats gs) ("gpu_mem_total_mb:" ++ toString g.id)).isSome = true := by
  intro gs
  induction gs with
  | nil =>
    intro g hg
    exact absurd hg (List.not_mem_nil g)
  | cons q rest ih =>
    intro g hg
    rcases List.mem_cons.mp hg with rfl | hg2
    · refine ⟨?_, ?_, ?_, ?_, ?_⟩
      · simp [gpuStats, ddFind]
      · simp only [gpuStats]
        apply ddFind_cons_isSome
        simp [ddFind]
      · simp only [gpuStats]
        apply ddFind_cons_isSome
        apply ddFind_cons_isSome
        simp [ddFind]
      · simp only [gpuStats]
        apply ddFind_cons_isSome
        apply ddFind_cons_isSome
        apply ddFind_cons_isSome
        simp [ddFind]
      · simp only [gpuStats]
        apply ddFind_cons_isSome
        apply ddFind_cons_isSome
        apply ddFind_cons_isSome
        apply ddFind_cons_isSome
        simp [ddFind]
    · have hk := ih g hg2
      have skip : ∀ (k : String), (ddFind (gpuStats rest) k).isSome = true →
          (ddFind (gpuStats (q :: rest)) k).isSome = true := by
        intro k h
        simp only [gpuStats]
        exact ddFind_cons_isSome _ _ _ _ (ddFind_cons_isSome _ _ _ _
          (ddFind_cons_isSome _ _ _ _ (ddFind_cons_isSome _ _ _ _
            (ddFind_cons_isSome _ _ _ _ h))))
      exact ⟨skip _ hk.1, skip _ hk.2.1, skip _ hk.2.2.1, skip _ hk.2.2.2.1,
        skip _ hk.2.2.2.2⟩

/-- C9: when the History Sampler cannot build a full snapshot the whole
tick is skipped — the buffer after the tick equals the buffer before —
and no partial snapshot is ever produced: any snapshot `collect_stats`
returns carries values for every enabled category key (meta keys, all
five cpu keys, both disk keys of every mounted path, and all five keys
of every discovered accelerator). -/
theorem C9_no_partial_snapshot (buf : List Stats) (dt : Int) (r : MetricReadings) :
    (collect_stats ["cpu", "disk", "gpu"] dt r = none →
      SystemStatsCollectorCog.collect_stats buf dt r = buf) ∧
    (∀ s, collect_stats ["cpu", "disk", "gpu"] dt r = some s →
      (ddFind s "_id").isSome = true ∧
      (ddFind s "_datetime").isSome = true ∧
      (ddFind s "load_avg_1m_perc_percpu").isSome = true ∧
      (ddFind s "load_avg_5m_perc_percpu").isSome = true ∧
      (ddFind s "load_avg_15m_perc_percpu").isSome = true ∧
      (ddFind s "mem_util_perc").isSome = true ∧
      (ddFind s "mem_used_gb").isSome = true ∧
      (∀ p ∈ r.disk_paths,
        (ddFind s ("disk_usage_perc:" ++ p)).isSome = true ∧
        (ddFind s ("disk_free_gb:" ++ p)).isSome = true) ∧
      (r.has_gpu_deps = true → ∀ gs, r.gpus = some gs → ∀ g ∈ gs,
        (ddFind s ("gpu_util_perc:" ++ toString g.id)).isSome = true ∧
        (ddFind s ("gpu_mem_perc:" ++ toString g.id)).isSome = true ∧
        (ddFind s ("gpu_temp:" ++ toString g.id)).isSome = true ∧
        (ddFind s ("gpu_mem_used_mb:" ++ toString g.id)).isSome = true ∧
        (ddFind s ("gpu_mem_total_mb:" ++ toString g.id)).isSome = true)) := by
  constructor
  · intro h
    simp [SystemStatsCollectorCog.collect_stats, _collect_stats, h]
  · intro s hs
    rcases hload : r.loadavg with _ | ⟨l1, l5, l15⟩
    · exfalso
      simp [collect_stats, hload] at hs
    rcases hmu : r.mem_util with _ | mu
    · exfalso
      simp [collect_stats, hload, hmu] at hs
    rcases hmg : r.mem_used with _ | mg
    · exfalso
      simp [collect_stats, hload, hmu, hmg] at hs
    rcases hdisk : diskStats r r.disk_paths with _ | disk
    · exfalso
      simp [collect_stats, hload, hmu, hmg, hdisk] at hs
    by_cases hdeps : r.has_gpu_deps = true
    case pos =>
      rcases hgpus : r.gpus with _ | gs0
      · exfalso
        simp [collect_stats, hload, hmu, hmg, hdisk, hdeps, hgpus] at hs
      · have hs2 := hs
        simp [collect_stats, hload, hmu, hmg, hdisk, hdeps, hgpus] at hs2
        subst hs2
        refine ⟨by simp [ddFind], by simp [ddFind], by simp [ddFind], by simp [ddFind],
          by simp [ddFind], by simp [ddFind], by simp [ddFind], ?_, ?_⟩
        · intro p hp
          have hd := diskStats_keys r r.disk_paths disk hdisk p hp
          constructor
          · repeat apply ddFind_cons_isSome
            rw [ddFind_append_isSome, hd.1]
            simp
          · repeat apply ddFind_cons_isSome
            rw [ddFind_append_isSome, hd.2]
            simp
        · intro _ gs hgs g hg
          obtain rfl : gs0 = gs := Option.some.inj hgs
          have hgk := gpuStats_keys gs0 g hg
          refine ⟨?_, ?_, ?_, ?_, ?_⟩
          · repeat apply ddFind_cons_isSome
            rw [ddFind_append_isSome, hgk.1]
            simp
          · repeat apply ddFind_cons_isSome
            rw [ddFind_append_isSome, hgk.2.1]
            simp
          · repeat apply ddFind_cons_isSome
            rw [ddFind_append_isSome, hgk.2.2.1]
            simp
          · repeat apply ddFind_cons_isSome
            rw [ddFind_append_isSome, hgk.2.2.2.1]
            simp
          · repeat apply ddFind_cons_isSome
            rw [ddFind_append_isSome, hgk.2.2.2.2]
            simp
    case neg =>
      have hs2 := hs
      simp [collect_stats, hload, hmu, hmg, hdisk, hdeps] at hs2
      subst hs2
      refine ⟨by simp [ddFind], by simp [ddFind], by simp [ddFind], by simp [ddFind],
        by simp [ddFind], by simp [ddFind], by simp [ddFind], ?_, ?_⟩
      · intro p hp
        have hd := diskStats_keys r r.disk_paths disk hdisk p hp
        constructor
        · repeat apply ddFind_cons_isSome
          exact hd.1
        · repeat apply ddFind_cons_isSome
          exact hd.2
      · intro hdeps2
        exact absurd hdeps2 hdeps

theorem C9_no_partial_snapshot_witness :
    SystemStatsCollectorCog.collect_stats [] 0 exFailReadings = [] ∧
    (ddFind ((collect_stats ["cpu", "disk", "gpu"] 0 exOkReadings).getD [])
      "mem_util_perc").isSome = true := by
  constructor
  · exact (C9_no_partial_snapshot [] 0 exFailReadings).1 (by decide)
  · exact ((C9_no_partial_snapshot [] 0 exOkReadings).2
      ((collect_stats ["cpu", "disk", "gpu"] 0 exOkReadings).getD [])
      (by decide)).2.2.2.2.2.1

theorem dequeAppend_length (buf : List Stats) (m : ℕ) (x : Stats) :
    (SystemStatsCollectorCog.dequeAppend buf m x).length = min (buf.length + 1) m := by
  simp [SystemStatsCollectorCog.dequeAppend, List.length_drop]
  omega

theorem dequeAppend_getElem? (buf : List Stats) (m : ℕ) (x : Stats) (i : ℕ) :
    (SystemStatsCollectorCog.dequeAppend buf m x)[i]? =
      (buf ++ [x])[buf.length + 1 - m + i]? := by
  simp [SystemStatsCollectorCog.dequeAppend, List.getElem?_drop]

theorem dequeAppend_getLast (buf : List Stats) (m : ℕ) (hm : 1 ≤ m) (x : Stats) :
    (SystemStatsCollectorCog.dequeAppend buf m x).getLast? = some x := by
  have hle : (buf ++ [x]).length - m ≤ buf.length := by
    simp
    omega
  simp only [SystemStatsCollectorCog.dequeAppend]
  rw [List.drop_append_of_le_length hle, List.getLast?_concat]

theorem collect_stats_id (dt : Int) (r : MetricReadings) (s : Stats)
    (h : collect_stats ["cpu", "disk", "gpu"] dt r = some s) :
    ddFind s "_id" = some 0 := by
  rcases hload : r.loadavg with _ | ⟨l1, l5, l15⟩
  · simp [collect_stats, hload] at h
  rcases hmu : r.mem_util with _ | mu
  · simp [collect_stats, hload, hmu] at h
  rcases hmg : r.mem_used with _ | mg
  · simp [collect_stats, hload, hmu, hmg] at h
  rcases hdisk : diskStats r r.disk_paths with _ | disk
  · simp [collect_stats, hload, hmu, hmg, hdisk] at h
  by_cases hdeps : r.has_gpu_deps = true
  case pos =>
    rcases hgpus : r.gpus with _ | gs0
    · simp [collect_stats, hload, hmu, hmg, hdisk, hdeps, hgpus] at h
    · have h2 := h
      simp [collect_stats, hload, hmu, hmg, hdisk, hdeps, hgpus] at h2
      subst h2
      simp [ddFind]
  case neg =>
    have h2 := h
    simp [collect_stats, hload, hmu, hmg, hdisk, hdeps] at h2
    subst h2
    simp [ddFind]

theorem collect_tick_inv (dt : Int) (r : MetricReadings) (buf : List Stats) (k : ℕ)
    (hm : 1 ≤ SystemStatsCollectorCog.maxlen)
    (hlen : buf.length = min k SystemStatsCollectorCog.maxlen)
    (hid : ∀ i, i < buf.length →
      ((buf[i]?).map SystemStatsCollectorCog.sid) =
        some ((k - buf.length + i : ℕ) : ℤ)) :
    (SystemStatsCollectorCog.collect_stats buf dt r).length =
      min (k + if SystemStatsCollectorCog.collectOk (dt, r) then 1 else 0)
        SystemStatsCollectorCog.maxlen ∧
    (∀ i, i < (SystemStatsCollectorCog.collect_stats buf dt r).length →
      (((SystemStatsCollectorCog.collect_stats buf dt r)[i]?).map
        SystemStatsCollectorCog.sid) =
        some ((k + (if SystemStatsCollectorCog.collectOk (dt, r) then 1 else 0) -
          (SystemStatsCollectorCog.collect_stats buf dt r).length + i : ℕ) : ℤ)) := by
  cases hok : _collect_stats ["cpu", "disk", "gpu"] dt r with
  | none =>
    have hco : SystemStatsCollectorCog.collectOk (dt, r) = false := by
      simp [SystemStatsCollectorCog.collectOk, hok]
    simp only [SystemStatsCollectorCog.collect_stats, hok, hco, if_false]
    exact ⟨by simpa using hlen, by simpa using hid⟩
  | some cur =>
    have hco : SystemStatsCollectorCog.collectOk (dt, r) = true := by
      simp [SystemStatsCollectorCog.collectOk, hok]
    rcases hbuf : buf.getLast? with _ | last
    · -- empty buffer: the fresh snapshot keeps its `_id = 0`
      have hempty : buf = [] := List.getLast?_eq_none_iff.mp hbuf
      subst hempty
      have hk0 : k = 0 := by
        simp at hlen
        omega
      subst hk0
      have hsid0 : SystemStatsCollectorCog.sid cur = 0 := by
        have hdd := collect_stats_id dt r cur hok
        simp [SystemStatsCollectorCog.sid, ddVal, hdd]
      have hda : SystemStatsCollectorCog.dequeAppend [] SystemStatsCollectorCog.maxlen cur
          = [cur] := by
        have h10 : 1 - SystemStatsCollectorCog.maxlen = 0 := by omega
        simp [SystemStatsCollectorCog.dequeAppend, h10]
      simp only [SystemStatsCollectorCog.collect_stats, hok, hbuf, hco, hda]
      constructor
      · simp
        omega
      · intro i hi
        simp only [List.length_cons, List.length_nil] at hi
        have hi0 : i = 0 := by omega
        subst hi0
        simp [hsid0]
    · -- non-empty buffer: the new snapshot continues the sequence
      have hne : buf ≠ [] := by
        intro he
        rw [he] at hbuf
        simp at hbuf
      have hlpos : 0 < buf.length := List.length_pos.mpr hne
      have hkge : buf.length ≤ k := by omega
      have hlast2 : (buf[buf.length - 1]?).map SystemStatsCollectorCog.sid =
          some (SystemStatsCollectorCog.sid last) := by
        rw [← List.getLast?_eq_getElem?, hbuf]
        rfl
      have hsidlast : SystemStatsCollectorCog.sid last = ((k - 1 : ℕ) : ℤ) := by
        have h1 := hid (buf.length - 1) (by omega)
        have h2 := Option.some.inj (hlast2.symm.trans h1)
        rw [h2]
        exact congrArg _ (by omega)
      have hsidcur : SystemStatsCollectorCog.sid
          (ddWrite cur "_id" (ddVal 0 last "_id" + 1)) = (k : ℤ) := by
        have hw : SystemStatsCollectorCog.sid (ddWrite cur "_id" (ddVal 0 last "_id" + 1)) =
            ddVal 0 last "_id" + 1 := by
          simp [SystemStatsCollectorCog.sid, ddVal_write_self]
        rw [hw, show ddVal 0 last "_id" = SystemStatsCollectorCog.sid last from rfl, hsidlast]
        omega
      simp only [SystemStatsCollectorCog.collect_stats, hok, hbuf, hco, if_true]
      constructor
      · rw [dequeAppend_length]
        omega
      · intro i hi
        rw [dequeAppend_length] at hi
        rw [dequeAppend_getElem?, dequeAppend_length]
        by_cases hj : buf.length + 1 - SystemStatsCollectorCog.maxlen + i < buf.length
        case pos =>
          rw [List.getElem?_append_left hj, hid _ hj]
          exact congrArg some (Nat.cast_inj.mpr (by omega))
        case neg =>
          have hge : buf.length ≤ buf.length + 1 - SystemStatsCollectorCog.maxlen + i := by
            omega
          rw [List.getElem?_append_right hge]
          have hj0 : buf.length + 1 - SystemStatsCollectorCog.maxlen + i - buf.length = 0 := by
            omega
          rw [hj0]
          simp only [List.getElem?_cons_zero, Option.map_some']
          rw [hsidcur]
          exact congrArg some (by
            have : k + 1 - min (buf.length + 1) SystemStatsCollectorCog.maxlen + i = k := by
              omega
            rw [this])

theorem runCollector_inv (ticks : List (Int × MetricReadings)) :
    ∀ (buf : List Stats) (k : ℕ),
      buf.length = min k SystemStatsCollectorCog.maxlen →
      (∀ i, i < buf.length →
        ((buf[i]?).map SystemStatsCollectorCog.sid) =
          some ((k - buf.length + i : ℕ) : ℤ)) →
      ((SystemStatsCollectorCog.runCollector buf ticks).length =
        min (k + SystemStatsCollectorCog.successCount ticks)
          SystemStatsCollectorCog.maxlen) ∧
      (∀ i, i < (SystemStatsCollectorCog.runCollector buf ticks).length →
        (((SystemStatsCollectorCog.runCollector buf ticks)[i]?).map
          SystemStatsCollectorCog.sid) =
          some ((k + SystemStatsCollectorCog.successCount ticks -
            (SystemStatsCollectorCog.runCollector buf ticks).length + i : ℕ) : ℤ)) := by
  induction ticks with
  | nil =>
    intro buf k hlen hid
    refine ⟨by simpa [SystemStatsCollectorCog.runCollector,
      SystemStatsCollectorCog.successCount] using hlen, ?_⟩
    intro i hi
    simp only [SystemStatsCollectorCog.runCollector, List.foldl_nil] at hi ⊢
    simpa [SystemStatsCollectorCog.successCount] using hid i hi
  | cons t rest ih =>
    intro buf k hlen hid
    have hm : 1 ≤ SystemStatsCollectorCog.maxlen := by
      rw [SystemStatsCollectorCog.maxlen_eq]
      omega
    have hstep := collect_tick_inv t.1 t.2 buf k hm hlen hid
    have hrun : SystemStatsCollectorCog.runCollector buf (t :: rest) =
        SystemStatsCollectorCog.runCollector
          (SystemStatsCollectorCog.collect_stats buf t.1 t.2) rest := by
      simp [SystemStatsCollectorCog.runCollector]
    have hsucc : SystemStatsCollectorCog.successCount (t :: rest) =
        (if SystemStatsCollectorCog.collectOk (t.1, t.2) then 1 else 0) +
          SystemStatsCollectorCog.successCount rest := by
      simp [SystemStatsCollectorCog.successCount, List.countP_cons]
      omega
    have hrec := ih (SystemStatsCollectorCog.collect_stats buf t.1 t.2)
      (k + if SystemStatsCollectorCog.collectOk (t.1, t.2) then 1 else 0) hstep.1 hstep.2
    rw [hrun, hsucc]
    constructor
    · rw [hrec.1]
      exact congrArg (fun n => min n SystemStatsCollectorCog.maxlen) (by omega)
    · intro i hi
      rw [hrec.2 i hi]
      exact congrArg some (Nat.cast_inj.mpr (by omega))

/-- C6: over any run of collector ticks from an empty buffer, the history
buffer never holds more than its configured capacity; once the number of
successful appends reaches capacity + 1 the snapshot with sequence id 0
is no longer present; each successful tick appends a snapshot whose
sequence id is the previous newest snapshot's id + 1 (0 when the buffer
is empty); and the retained sequence ids are contiguous and strictly
increasing. -/
theorem C6_history_buffer_invariants (ticks : List (Int × MetricReadings)) :
    (SystemStatsCollectorCog.runCollector [] ticks).length ≤
      SystemStatsCollectorCog.maxlen ∧
    (SystemStatsCollectorCog.maxlen + 1 ≤ SystemStatsCollectorCog.successCount ticks →
      ∀ s ∈ SystemStatsCollectorCog.runCollector [] ticks,
        SystemStatsCollectorCog.sid s ≠ 0) ∧
    (∀ (buf : List Stats) (dt : Int) (r : MetricReadings),
      SystemStatsCollectorCog.collectOk (dt, r) = true →
      ((SystemStatsCollectorCog.collect_stats buf dt r).getLast?).map
          SystemStatsCollectorCog.sid =
        some (match buf.getLast? with
          | some last => SystemStatsCollectorCog.sid last + 1
          | none => 0)) ∧
    (∀ (i : ℕ) (h : i + 1 < (SystemStatsCollectorCog.runCollector [] ticks).length),
      SystemStatsCollectorCog.sid
          ((SystemStatsCollectorCog.runCollector [] ticks)[i + 1]) =
        SystemStatsCollectorCog.sid
          ((SystemStatsCollectorCog.runCollector [] ticks)[i]) + 1) ∧
    (∀ (i j : ℕ) (hi : i < (SystemStatsCollectorCog.runCollector [] ticks).length)
        (hj : j < (SystemStatsCollectorCog.runCollector [] ticks).length), i < j →
      SystemStatsCollectorCog.sid ((SystemStatsCollectorCog.runCollector [] ticks)[i]) <
        SystemStatsCollectorCog.sid ((SystemStatsCollectorCog.runCollector [] ticks)[j])) := by
  have hm : 1 ≤ SystemStatsCollectorCog.maxlen := by
    rw [SystemStatsCollectorCog.maxlen_eq]
    omega
  have hinv := runCollector_inv ticks [] 0 (by simp)
    (by intro i hi; simp at hi)
  have hlen := hinv.1
  refine ⟨?_, ?_, ?_, ?_, ?_⟩
  · omega
  · intro hK s hs
    obtain ⟨i, hi, rfl⟩ := List.mem_iff_getElem.mp hs
    have h1 := hinv.2 i hi
    rw [List.getElem?_eq_getElem hi, Option.map_some'] at h1
    have h2 := Option.some.inj h1
    rw [h2]
    omega
  · intro buf dt r hok
    obtain ⟨cur, hcur⟩ := Option.isSome_iff_exists.mp
      (by simpa [SystemStatsCollectorCog.collectOk] using hok)
    rcases hbuf : buf.getLast? with _ | last
    · have hempty := List.getLast?_eq_none_iff.mp hbuf
      subst hempty
      simp only [SystemStatsCollectorCog.collect_stats, hcur, List.getLast?_nil]
      rw [dequeAppend_getLast _ _ hm]
      have hdd := collect_stats_id dt r cur hcur
      simp [SystemStatsCollectorCog.sid, ddVal, hdd]
    · simp only [SystemStatsCollectorCog.collect_stats, hcur, hbuf]
      rw [dequeAppend_getLast _ _ hm]
      simp [SystemStatsCollectorCog.sid, ddVal_write_self]
  · intro i h
    have h1 := hinv.2 i (by omega)
    have h2 := hinv.2 (i + 1) h
    rw [List.getElem?_eq_getElem (by omega : i <
      (SystemStatsCollectorCog.runCollector [] ticks).length), Option.map_some'] at h1
    rw [List.getElem?_eq_getElem h, Option.map_some'] at h2
    have e1 := Option.some.inj h1
    have e2 := Option.some.inj h2
    omega
  · intro i j hi hj hij
    have h1 := hinv.2 i hi
    have h2 := hinv.2 j hj
    rw [List.getElem?_eq_getElem hi, Option.map_some'] at h1
    rw [List.getElem?_eq_getElem hj, Option.map_some'] at h2
    have e1 := Option.some.inj h1
    have e2 := Option.some.inj h2
    omega

theorem C6_history_buffer_invariants_witness :
    ((SystemStatsCollectorCog.runCollector []
        (List.replicate 1681 ((0 : Int), exOkReadings))).all
      (fun s => decide (SystemStatsCollectorCog.sid s ≠ 0))) = true ∧
    ((SystemStatsCollectorCog.runCollector []
        [((0 : Int), exOkReadings), ((1 : Int), exOkReadings)])[1]?).map
      SystemStatsCollectorCog.sid =
    ((SystemStatsCollectorCog.runCollector []
        [((0 : Int), exOkReadings), ((1 : Int), exOkReadings)])[0]?).map
      (fun z => SystemStatsCollectorCog.sid z + 1) ∧
    ((SystemStatsCollectorCog.collect_stats [] 0 exOkReadings).getLast?).map
        SystemStatsCollectorCog.sid = some 0 := by
  have hok : SystemStatsCollectorCog.collectOk ((0 : Int), exOkReadings) = true := by
    decide
  refine ⟨?_, ?_, ?_⟩
  · have hsucc : SystemStatsCollectorCog.successCount
        (List.replicate 1681 ((0 : Int), exOkReadings)) = 1681 := by
      simp only [SystemStatsCollectorCog.successCount, List.countP_replicate, hok, if_true]
    have h := (C6_history_buffer_invariants
        (List.replicate 1681 ((0 : Int), exOkReadings))).2.1
      (by rw [SystemStatsCollectorCog.maxlen_eq, hsucc])
    exact List.all_eq_true.mpr (fun s hs => decide_eq_true (h s hs))
  · have hok1 : SystemStatsCollectorCog.collectOk ((1 : Int), exOkReadings) = true := by
      decide
    have hsucc2 : SystemStatsCollectorCog.successCount
        [((0 : Int), exOkReadings), ((1 : Int), exOkReadings)] = 2 := by
      simp [SystemStatsCollectorCog.successCount, List.countP_cons, hok, hok1]
    have hinv2 := runCollector_inv
      [((0 : Int), exOkReadings), ((1 : Int), exOkReadings)] [] 0 (by simp)
      (by intro i hi; simp at hi)
    have hlen2 : (SystemStatsCollectorCog.runCollector []
        [((0 : Int), exOkReadings), ((1 : Int), exOkReadings)]).length = 2 := by
      rw [hinv2.1, hsucc2, SystemStatsCollectorCog.maxlen_eq]
      omega
    have hb1 : 1 < (SystemStatsCollectorCog.runCollector []
        [((0 : Int), exOkReadings), ((1 : Int), exOkReadings)]).length := by omega
    have hb0 : 0 < (SystemStatsCollectorCog.runCollector []
        [((0 : Int), exOkReadings), ((1 : Int), exOkReadings)]).length := by omega
    have h4 := (C6_history_buffer_invariants
      [((0 : Int), exOkReadings), ((1 : Int), exOkReadings)]).2.2.2.1 0 hb1
    rw [List.getElem?_eq_getElem hb1, List.getElem?_eq_getElem hb0,
      Option.map_some', Option.map_some']
    exact congrArg some h4
  · have h := (C6_history_buffer_invariants []).2.2.1 [] 0 exOkReadings hok
    simpa using h
